import Mathlib

/-!
Shallow embedding of src/script/provider.go of the terraform-provider-custom
repository: the provider schema defaults and the configuration-resolution
function providerConfigure, together with theorems about the resolved Config.
-/

namespace Script

/-- Log levels of the hclog library; NoLevel is the zero value that
hclog.LevelFromString returns on unrecognized input. -/
inductive LogLevel where
  | NoLevel
  | Trace
  | Debug
  | Info
  | Warn
  | Error
  deriving DecidableEq

/-- hclog.LevelFromString: case-insensitive parse of a level name; any other
string maps to NoLevel. -/
def levelFromString (s : String) : LogLevel :=
  match s.toLower with
  | "trace" => LogLevel.Trace
  | "debug" => LogLevel.Debug
  | "info" => LogLevel.Info
  | "warn" => LogLevel.Warn
  | "error" => LogLevel.Error
  | _ => LogLevel.NoLevel

/-- The provider-level arguments of one schema.ResourceData, as typed values.
none models an argument the user left unset, for which d.Get yields the
Default declared in the Provider schema; Required arguments
(working_directory, create_command, read_command, delete_command) are plain
fields.  The interpreter argument is a TypeList with no Default: when unset,
d.Get returns an empty list, so it is modelled directly as a list.  Field
names follow the schema keys of Provider in src/script/provider.go. -/
structure ResourceData where
  bufferSize : Option Int
  logProviderName : Option String
  logLevel : Option String
  commandLogLevel : Option String
  commandLogWidth : Option Int
  interpreter : List String
  workingDirectory : String
  includeParentEnvironment : Option Bool
  commandPrefix : Option String
  commandJoiner : Option String
  commandIsolator : Option String
  createCommand : String
  readCommand : String
  deleteOnReadFailure : Option Bool
  readFormat : Option String
  readLinePrefix : Option String
  updateCommand : Option String
  deleteBeforeUpdate : Option Bool
  createBeforeUpdate : Option Bool
  createAfterUpdate : Option Bool
  existsCommand : Option String
  existsExpectedStatus : Option Int
  deleteCommand : String
  deriving DecidableEq

/-- Schema default of command_joiner in Provider. -/
def defaultCommandJoiner : String := "%s\n%s"

/-- Schema default of command_isolator in Provider. -/
def defaultCommandIsolator : String := "(\n%s\n)"

/-- d.Get on buffer_size: schema Default is 1 * 1024 * 1024. -/
def getBufferSize (d : ResourceData) : Int := d.bufferSize.getD (1 * 1024 * 1024)

/-- d.Get on log_provider_name: schema Default is the empty string. -/
def getLogProviderName (d : ResourceData) : String := d.logProviderName.getD ""

/-- d.Get on log_level: schema Default is WARN. -/
def getLogLevel (d : ResourceData) : String := d.logLevel.getD "WARN"

/-- d.Get on command_log_level: schema Default is INFO. -/
def getCommandLogLevel (d : ResourceData) : String := d.commandLogLevel.getD "INFO"

/-- d.Get on command_log_width: schema Default is 1. -/
def getCommandLogWidth (d : ResourceData) : Int := d.commandLogWidth.getD 1

/-- d.Get on include_parent_environment: schema Default is true. -/
def getIncludeParentEnvironment (d : ResourceData) : Bool :=
  d.includeParentEnvironment.getD true

/-- d.Get on command_prefix: schema Default is the empty string. -/
def getCommandPrefix (d : ResourceData) : String := d.commandPrefix.getD ""

/-- d.Get on command_joiner: schema Default is defaultCommandJoiner. -/
def getCommandJoiner (d : ResourceData) : String :=
  d.commandJoiner.getD defaultCommandJoiner

/-- d.Get on command_isolator: schema Default is defaultCommandIsolator. -/
def getCommandIsolator (d : ResourceData) : String :=
  d.commandIsolator.getD defaultCommandIsolator

/-- d.Get on delete_on_read_failure: schema Default is true. -/
def getDeleteOnReadFailure (d : ResourceData) : Bool :=
  d.deleteOnReadFailure.getD true

/-- d.Get on read_format: schema Default is raw. -/
def getReadFormat (d : ResourceData) : String := d.readFormat.getD "raw"

/-- d.Get on read_line_prefix: schema Default is the empty string. -/
def getReadLinePrefix (d : ResourceData) : String := d.readLinePrefix.getD ""

/-- d.Get on update_command: schema Default is the empty string. -/
def getUpdateCommand (d : ResourceData) : String := d.updateCommand.getD ""

/-- d.Get on delete_before_update: schema Default is false. -/
def getDeleteBeforeUpdate (d : ResourceData) : Bool :=
  d.deleteBeforeUpdate.getD false

/-- d.Get on create_before_update: schema Default is false. -/
def getCreateBeforeUpdate (d : ResourceData) : Bool :=
  d.createBeforeUpdate.getD false

/-- d.Get on create_after_update: schema Default is false. -/
def getCreateAfterUpdate (d : ResourceData) : Bool :=
  d.createAfterUpdate.getD false

/-- d.Get on exists_command: schema Default is the empty string. -/
def getExistsCommand (d : ResourceData) : String := d.existsCommand.getD ""

/-- d.Get on exists_expected_status: schema Default is 0. -/
def getExistsExpectedStatus (d : ResourceData) : Int :=
  d.existsExpectedStatus.getD 0

/-- The resolved Config structure of src/script/provider.go.  The Logger field
of the Go Config is an hclog logger built from the log_level argument; only its
level is configuration-derived, so the embedding keeps that level. -/
structure Config where
  Logger : LogLevel
  CommandLogLevel : LogLevel
  CommandLogWidth : Int
  CommandIsolator : String
  CommandJoiner : String
  CommandPrefix : String
  Interpreter : List String
  WorkingDirectory : String
  IncludeParentEnvironment : Bool
  BufferSize : Int
  CreateCommand : String
  ReadCommand : String
  DeleteOnReadFailure : Bool
  ReadFormat : String
  ReadLinePrefix : String
  UpdateCommand : String
  DeleteBeforeUpdate : Bool
  CreateAfterUpdate : Bool
  CreateBeforeUpdate : Bool
  DeleteCommand : String
  ExistsCommand : String
  ExistsExpectedStatus : Int
  LogProviderName : String
  deriving DecidableEq

/-- The body of providerConfigure of src/script/provider.go, parameterized by
runtime.GOOS.  The interpreter resolution mirrors the source exactly: inside
the empty-interpreter branch the windows assignment is immediately shadowed by
the unconditional assignment of /bin/sh -c, exactly as the Go code overwrites
it on the next line. -/
def providerConfigureConfig (goos : String) (d : ResourceData) : Config :=
  let interpreterI := d.interpreter
  let interpreter :=
    if interpreterI.length = 0 then
      let interpreterI := if goos = "windows" then ["cmd", "/C"] else interpreterI
      let interpreterI := ["/bin/sh", "-c"]
      interpreterI
    else
      interpreterI
  let dbu := getDeleteBeforeUpdate d
  let cau := getCreateAfterUpdate d
  let cbu := getCreateBeforeUpdate d
  let update := getUpdateCommand d
  let dbu := if update = "" then true else dbu
  let cau := if update = "" then true else cau
  let cbu := if update = "" then false else cbu
  { Logger := levelFromString (getLogLevel d)
    CommandLogLevel := levelFromString (getCommandLogLevel d)
    CommandLogWidth := getCommandLogWidth d
    CommandIsolator := getCommandIsolator d
    CommandJoiner := getCommandJoiner d
    CommandPrefix := getCommandPrefix d
    Interpreter := interpreter
    WorkingDirectory := d.workingDirectory
    IncludeParentEnvironment := getIncludeParentEnvironment d
    BufferSize := getBufferSize d
    CreateCommand := d.createCommand
    ReadCommand := d.readCommand
    DeleteOnReadFailure := getDeleteOnReadFailure d
    ReadFormat := getReadFormat d
    ReadLinePrefix := getReadLinePrefix d
    UpdateCommand := update
    DeleteBeforeUpdate := dbu
    CreateAfterUpdate := cau
    CreateBeforeUpdate := cbu
    DeleteCommand := d.deleteCommand
    ExistsCommand := getExistsCommand d
    ExistsExpectedStatus := getExistsExpectedStatus d
    LogProviderName := getLogProviderName d }

/-- providerConfigure of src/script/provider.go: it builds the Config and
returns it with a nil error, unconditionally. -/
def providerConfigure (goos : String) (d : ResourceData) : Except String Config :=
  Except.ok (providerConfigureConfig goos d)

/-- A concrete provider configuration leaving every Optional argument unset. -/
def exampleData : ResourceData where
  bufferSize := none
  logProviderName := none
  logLevel := none
  commandLogLevel := none
  commandLogWidth := none
  interpreter := []
  workingDirectory := "/tmp"
  includeParentEnvironment := none
  commandPrefix := none
  commandJoiner := none
  commandIsolator := none
  createCommand := "touch /tmp/x"
  readCommand := "cat /tmp/x"
  deleteOnReadFailure := none
  readFormat := none
  readLinePrefix := none
  updateCommand := none
  deleteBeforeUpdate := none
  createBeforeUpdate := none
  createAfterUpdate := none
  existsCommand := none
  existsExpectedStatus := none
  deleteCommand := "rm /tmp/x"

/-- Counting the format placeholders of a Go fmt template over its characters:
a percent sign starts a placeholder, except that a doubled percent sign is the
escaped literal percent. -/
def countFormatVerbs : List Char → Nat
  | [] => 0
  | '%' :: '%' :: rest => countFormatVerbs rest
  | '%' :: rest => countFormatVerbs rest + 1
  | _ :: rest => countFormatVerbs rest

/-- Number of format placeholders of a template string. -/
def countPlaceholders (s : String) : Nat := countFormatVerbs s.data

/-- An Option Bool whose d.Get-resolved value (default false) is true must
have been explicitly set to true. -/
theorem getD_false_true (o : Option Bool) (h : o.getD false = true) :
    o = some true := by
  cases o with
  | none => simp at h
  | some b => simpa using h

/-- C1: if the user-supplied update_command is the empty string, the resolved
Config has DeleteBeforeUpdate = true, CreateAfterUpdate = true and
CreateBeforeUpdate = false, whatever booleans the user supplied for
delete_before_update, create_before_update and create_after_update. -/
theorem claim1 (goos : String) (d : ResourceData) (h : d.updateCommand = some "") :
    (providerConfigureConfig goos d).DeleteBeforeUpdate = true ∧
    (providerConfigureConfig goos d).CreateAfterUpdate = true ∧
    (providerConfigureConfig goos d).CreateBeforeUpdate = false := by
  simp [providerConfigureConfig, getUpdateCommand, h]

/-- Input for the C1 witness: empty update command, all three sequencing
booleans set contrary to the forced resolution. -/
def dataEmptyUpdate : ResourceData :=
  { exampleData with
      updateCommand := some ""
      deleteBeforeUpdate := some false
      createBeforeUpdate := some true
      createAfterUpdate := some false }

/-- C1 witness at a concrete input. -/
theorem claim1_witness :
    (providerConfigureConfig "linux" dataEmptyUpdate).DeleteBeforeUpdate = true ∧
    (providerConfigureConfig "linux" dataEmptyUpdate).CreateAfterUpdate = true ∧
    (providerConfigureConfig "linux" dataEmptyUpdate).CreateBeforeUpdate = false :=
  claim1 "linux" dataEmptyUpdate rfl

/-- C3: the resolved Interpreter is never empty, and a non-empty user-supplied
interpreter list is used element-for-element in order. -/
theorem claim3 (goos : String) (d : ResourceData) :
    (providerConfigureConfig goos d).Interpreter ≠ [] ∧
    (d.interpreter ≠ [] →
      (providerConfigureConfig goos d).Interpreter = d.interpreter) := by
  by_cases h : d.interpreter.length = 0
  · refine ⟨by simp [providerConfigureConfig, h], fun hne => ?_⟩
    exact absurd (List.length_eq_zero.mp h) hne
  · refine ⟨?_, fun _ => by simp [providerConfigureConfig, h]⟩
    have hne : d.interpreter ≠ [] := fun he => h (by simp [he])
    simpa [providerConfigureConfig, h] using hne

/-- Input for the C3 witness: a user-supplied two-element interpreter. -/
def dataBashInterpreter : ResourceData :=
  { exampleData with interpreter := ["/bin/bash", "-c"] }

/-- C3 witness at a concrete input. -/
theorem claim3_witness :
    (providerConfigureConfig "linux" dataBashInterpreter).Interpreter ≠ [] ∧
    (providerConfigureConfig "linux" dataBashInterpreter).Interpreter =
      dataBashInterpreter.interpreter :=
  ⟨(claim3 "linux" dataBashInterpreter).1,
   (claim3 "linux" dataBashInterpreter).2 (by simp [dataBashInterpreter])⟩

/-- C4: when the user supplies no interpreter, the resolved Interpreter is
/bin/sh -c on every operating system, windows included: the cmd /C assignment
is dead code, unconditionally overwritten by the following assignment. -/
theorem claim4 (goos : String) (d : ResourceData) (h : d.interpreter = []) :
    (providerConfigureConfig goos d).Interpreter = ["/bin/sh", "-c"] := by
  simp [providerConfigureConfig, h]

/-- C4 witness on windows with the interpreter left unset. -/
theorem claim4_witness :
    exampleData.interpreter = [] ∧
    (providerConfigureConfig "windows" exampleData).Interpreter =
      ["/bin/sh", "-c"] :=
  ⟨rfl, claim4 "windows" exampleData rfl⟩

/-- C5 counterexample: a user-supplied buffer_size of 0 reaches the resolved
Config unvalidated, so BufferSize is not always positive. -/
theorem claim5_counterexample :
    ¬ (0 < (providerConfigureConfig "linux"
        { exampleData with bufferSize := some 0 }).BufferSize) := by
  decide

/-- C5 (amended): when buffer_size is unset, BufferSize defaults to 1048576,
which is positive; when the user sets buffer_size, the value reaches the
Config unchanged and unvalidated, so BufferSize is positive only if the
user-supplied value is. -/
theorem claim5_amended (goos : String) (d : ResourceData) :
    (d.bufferSize = none →
      (providerConfigureConfig goos d).BufferSize = 1048576 ∧
      0 < (providerConfigureConfig goos d).BufferSize) ∧
    (∀ n : Int, d.bufferSize = some n →
      (providerConfigureConfig goos d).BufferSize = n) := by
  constructor
  · intro h
    constructor
    · simp [providerConfigureConfig, getBufferSize, h]
    · simp [providerConfigureConfig, getBufferSize, h]
  · intro n h
    simp [providerConfigureConfig, getBufferSize, h]

/-- C5 witness: the default case and a concrete user-supplied size. -/
theorem claim5_witness :
    (providerConfigureConfig "linux" exampleData).BufferSize = 1048576 ∧
    (providerConfigureConfig "linux"
      { exampleData with bufferSize := some 7 }).BufferSize = 7 :=
  ⟨((claim5_amended "linux" exampleData).1 rfl).1,
   (claim5_amended "linux" { exampleData with bufferSize := some 7 }).2 7 rfl⟩

/-- C6: providerConfigure always succeeds: for every operating system and
every input ResourceData it returns a Config with a nil error. -/
theorem claim6 (goos : String) (d : ResourceData) :
    ∃ cfg : Config, providerConfigure goos d = Except.ok cfg :=
  ⟨providerConfigureConfig goos d, rfl⟩

/-- C7: the default command_joiner template has exactly two format
placeholders and the default command_isolator template exactly one. -/
theorem claim7 :
    countPlaceholders defaultCommandJoiner = 2 ∧
    countPlaceholders defaultCommandIsolator = 1 := by
  decide

/-- Input for the C2 counterexample: an update command together with both
create_before_update and create_after_update set to true.  The schema declares
these two arguments as conflicting, but providerConfigure itself never checks
them. -/
def dataBothCreate : ResourceData :=
  { exampleData with
      updateCommand := some "patch it"
      createBeforeUpdate := some true
      createAfterUpdate := some true }

/-- C2 counterexample: providerConfigure passes both booleans through when the
update command is non-empty, so the resolved Config can carry
CreateBeforeUpdate and CreateAfterUpdate both true. -/
theorem claim2_counterexample :
    (providerConfigureConfig "linux" dataBothCreate).CreateBeforeUpdate = true ∧
    (providerConfigureConfig "linux" dataBothCreate).CreateAfterUpdate = true := by
  decide

/-- C2 (amended): provided the input does not set create_before_update and
create_after_update both to true — the schema ConflictsWith declaration makes
such input invalid before providerConfigure runs — the resolved Config never
has CreateBeforeUpdate and CreateAfterUpdate both true. -/
theorem claim2_amended (goos : String) (d : ResourceData)
    (h : ¬ (d.createBeforeUpdate = some true ∧ d.createAfterUpdate = some true)) :
    ¬ ((providerConfigureConfig goos d).CreateBeforeUpdate = true ∧
       (providerConfigureConfig goos d).CreateAfterUpdate = true) := by
  intro hc
  by_cases hu : getUpdateCommand d = ""
  · have hf : (providerConfigureConfig goos d).CreateBeforeUpdate = false := by
      simp [providerConfigureConfig, hu]
    rw [hf] at hc
    exact absurd hc.1 (by simp)
  · have h1 : (providerConfigureConfig goos d).CreateBeforeUpdate =
        getCreateBeforeUpdate d := by
      simp [providerConfigureConfig, hu]
    have h2 : (providerConfigureConfig goos d).CreateAfterUpdate =
        getCreateAfterUpdate d := by
      simp [providerConfigureConfig, hu]
    have hb : d.createBeforeUpdate.getD false = true := by
      rw [← getCreateBeforeUpdate, ← h1]; exact hc.1
    have ha : d.createAfterUpdate.getD false = true := by
      rw [← getCreateAfterUpdate, ← h2]; exact hc.2
    exact h ⟨getD_false_true _ hb, getD_false_true _ ha⟩

/-- Input for the C2 witness: an update command with only
create_before_update set, a combination the schema accepts. -/
def dataOneCreate : ResourceData :=
  { exampleData with
      updateCommand := some "patch it"
      createBeforeUpdate := some true
      createAfterUpdate := some false }

/-- C2 witness at a concrete schema-valid input. -/
theorem claim2_witness :
    ¬ ((providerConfigureConfig "linux" dataOneCreate).CreateBeforeUpdate = true ∧
       (providerConfigureConfig "linux" dataOneCreate).CreateAfterUpdate = true) :=
  claim2_amended "linux" dataOneCreate (by decide)

/-- The non-logging fields of a resolved Config: everything except Logger,
CommandLogLevel, CommandLogWidth and LogProviderName. -/
structure ConfigCore where
  CommandIsolator : String
  CommandJoiner : String
  CommandPrefix : String
  Interpreter : List String
  WorkingDirectory : String
  IncludeParentEnvironment : Bool
  BufferSize : Int
  CreateCommand : String
  ReadCommand : String
  DeleteOnReadFailure : Bool
  ReadFormat : String
  ReadLinePrefix : String
  UpdateCommand : String
  DeleteBeforeUpdate : Bool
  CreateAfterUpdate : Bool
  CreateBeforeUpdate : Bool
  DeleteCommand : String
  ExistsCommand : String
  ExistsExpectedStatus : Int
  deriving DecidableEq

/-- Projection of a Config onto its non-logging fields. -/
def Config.core (c : Config) : ConfigCore where
  CommandIsolator := c.CommandIsolator
  CommandJoiner := c.CommandJoiner
  CommandPrefix := c.CommandPrefix
  Interpreter := c.Interpreter
  WorkingDirectory := c.WorkingDirectory
  IncludeParentEnvironment := c.IncludeParentEnvironment
  BufferSize := c.BufferSize
  CreateCommand := c.CreateCommand
  ReadCommand := c.ReadCommand
  DeleteOnReadFailure := c.DeleteOnReadFailure
  ReadFormat := c.ReadFormat
  ReadLinePrefix := c.ReadLinePrefix
  UpdateCommand := c.UpdateCommand
  DeleteBeforeUpdate := c.DeleteBeforeUpdate
  CreateAfterUpdate := c.CreateAfterUpdate
  CreateBeforeUpdate := c.CreateBeforeUpdate
  DeleteCommand := c.DeleteCommand
  ExistsCommand := c.ExistsCommand
  ExistsExpectedStatus := c.ExistsExpectedStatus

/-- Erases the four logging arguments of an input, leaving every other
argument intact.  Two inputs differ only in logging options exactly when
their scrubbed forms are equal. -/
def scrubLogging (d : ResourceData) : ResourceData :=
  { d with
      logLevel := none
      commandLogLevel := none
      commandLogWidth := none
      logProviderName := none }

/-- C8: two inputs that differ only in the logging options (log_level,
command_log_level, command_log_width, log_provider_name) resolve to Configs
that agree on every non-logging field. -/
theorem claim8 (goos : String) (d1 d2 : ResourceData)
    (h : scrubLogging d1 = scrubLogging d2) :
    (providerConfigureConfig goos d1).core =
    (providerConfigureConfig goos d2).core := by
  cases d1
  cases d2
  simp only [scrubLogging, ResourceData.mk.injEq, true_and, and_true] at h
  obtain ⟨h1, h2, h3, h4, h5, h6, h7, h8, h9, h10, h11, h12, h13, h14, h15,
    h16, h17, h18, h19⟩ := h
  subst_vars
  rfl

/-- Input for the C8 witness: exampleData with every logging option changed. -/
def dataLogVariant : ResourceData :=
  { exampleData with
      logLevel := some "DEBUG"
      commandLogLevel := some "ERROR"
      commandLogWidth := some 120
      logProviderName := some "custom" }

/-- C8 witness at two concrete inputs differing only in logging options. -/
theorem claim8_witness :
    (providerConfigureConfig "linux" exampleData).core =
    (providerConfigureConfig "linux" dataLogVariant).core :=
  claim8 "linux" exampleData dataLogVariant rfl

/-- The fields of a resolved Config outside the update group: everything
except UpdateCommand, DeleteBeforeUpdate, CreateBeforeUpdate and
CreateAfterUpdate. -/
structure ConfigNonUpdate where
  Logger : LogLevel
  CommandLogLevel : LogLevel
  CommandLogWidth : Int
  CommandIsolator : String
  CommandJoiner : String
  CommandPrefix : String
  Interpreter : List String
  WorkingDirectory : String
  IncludeParentEnvironment : Bool
  BufferSize : Int
  CreateCommand : String
  ReadCommand : String
  DeleteOnReadFailure : Bool
  ReadFormat : String
  ReadLinePrefix : String
  DeleteCommand : String
  ExistsCommand : String
  ExistsExpectedStatus : Int
  LogProviderName : String
  deriving DecidableEq

/-- Projection of a Config onto the fields outside the update group. -/
def Config.nonUpdate (c : Config) : ConfigNonUpdate where
  Logger := c.Logger
  CommandLogLevel := c.CommandLogLevel
  CommandLogWidth := c.CommandLogWidth
  CommandIsolator := c.CommandIsolator
  CommandJoiner := c.CommandJoiner
  CommandPrefix := c.CommandPrefix
  Interpreter := c.Interpreter
  WorkingDirectory := c.WorkingDirectory
  IncludeParentEnvironment := c.IncludeParentEnvironment
  BufferSize := c.BufferSize
  CreateCommand := c.CreateCommand
  ReadCommand := c.ReadCommand
  DeleteOnReadFailure := c.DeleteOnReadFailure
  ReadFormat := c.ReadFormat
  ReadLinePrefix := c.ReadLinePrefix
  DeleteCommand := c.DeleteCommand
  ExistsCommand := c.ExistsCommand
  ExistsExpectedStatus := c.ExistsExpectedStatus
  LogProviderName := c.LogProviderName

/-- Erases the four update-group arguments of an input, leaving every other
argument intact. -/
def scrubUpdate (d : ResourceData) : ResourceData :=
  { d with
      updateCommand := none
      deleteBeforeUpdate := none
      createBeforeUpdate := none
      createAfterUpdate := none }

/-- C9: when the user-supplied update_command is non-empty, the resolved
Config carries the user-supplied update command and the three sequencing
booleans through unchanged, and the update group influences no other Config
field: any second input agreeing on everything outside the update group
resolves to the same Config outside the update group. -/
theorem claim9 (goos : String) (d : ResourceData)
    (h : getUpdateCommand d ≠ "") :
    (providerConfigureConfig goos d).UpdateCommand = getUpdateCommand d ∧
    (providerConfigureConfig goos d).DeleteBeforeUpdate = getDeleteBeforeUpdate d ∧
    (providerConfigureConfig goos d).CreateBeforeUpdate = getCreateBeforeUpdate d ∧
    (providerConfigureConfig goos d).CreateAfterUpdate = getCreateAfterUpdate d ∧
    ∀ d2 : ResourceData, scrubUpdate d = scrubUpdate d2 →
      (providerConfigureConfig goos d).nonUpdate =
      (providerConfigureConfig goos d2).nonUpdate := by
  refine ⟨by simp [providerConfigureConfig, h],
    by simp [providerConfigureConfig, h],
    by simp [providerConfigureConfig, h],
    by simp [providerConfigureConfig, h],
    fun d2 h2 => ?_⟩
  clear h
  cases d
  cases d2
  simp only [scrubUpdate, ResourceData.mk.injEq, true_and, and_true] at h2
  obtain ⟨h1, h2, h3, h4, h5, h6, h7, h8, h9, h10, h11, h12, h13, h14, h15,
    h16, h17, h18, h19⟩ := h2
  subst_vars
  rfl

/-- Input for the C9 witness: a non-empty update command with two sequencing
booleans set. -/
def dataUpdate : ResourceData :=
  { exampleData with
      updateCommand := some "patch /tmp/x"
      deleteBeforeUpdate := some true
      createAfterUpdate := some true }

/-- Second input for the C9 witness: same as dataUpdate outside the update
group, different inside it. -/
def dataUpdateVariant : ResourceData :=
  { exampleData with
      updateCommand := some "rewrite /tmp/x"
      deleteBeforeUpdate := some false
      createBeforeUpdate := some true }

/-- C9 witness at concrete inputs. -/
theorem claim9_witness :
    (providerConfigureConfig "linux" dataUpdate).UpdateCommand =
      getUpdateCommand dataUpdate ∧
    (providerConfigureConfig "linux" dataUpdate).nonUpdate =
    (providerConfigureConfig "linux" dataUpdateVariant).nonUpdate :=
  ⟨(claim9 "linux" dataUpdate (by decide)).1,
   (claim9 "linux" dataUpdate (by decide)).2.2.2.2 dataUpdateVariant rfl⟩

/-- Modelled from the spec: the Exists operation of the Lifecycle Sequencer.
The resource implementation files of this repository are not under src/ (only
the provider schema and configuration resolution are), so the operation is
taken from spec section 4.4: compose and run ExistsCommand, report Present
exactly when the exit code equals ExistsExpectedStatus, report Absent on any
other exit code without error; only a spawn failure yields an error, which is
propagated.  The run outcome is the spawn result: an error message on spawn
failure, otherwise the exit code of the finished command. -/
def existsOperation (c : Config) (runResult : Except String Int) :
    Except String Bool :=
  match runResult with
  | Except.error e => Except.error e
  | Except.ok code => Except.ok (decide (code = c.ExistsExpectedStatus))

/-- C10: the Exists operation reports the resource present exactly when the
exit code of the exists command equals ExistsExpectedStatus (whose schema
default is 0); any other exit code reports absent with no error, and only a
spawn failure produces an error. -/
theorem claim10 (c : Config) :
    (∀ code : Int,
      (existsOperation c (Except.ok code) = Except.ok true ↔
        code = c.ExistsExpectedStatus)) ∧
    (∀ code : Int, code ≠ c.ExistsExpectedStatus →
      existsOperation c (Except.ok code) = Except.ok false) ∧
    (∀ e : String, existsOperation c (Except.error e) = Except.error e) ∧
    (∀ (goos : String) (d : ResourceData), d.existsExpectedStatus = none →
      (providerConfigureConfig goos d).ExistsExpectedStatus = 0) := by
  refine ⟨fun code => ?_, fun code hne => ?_, fun e => rfl, fun goos d h => ?_⟩
  · simp [existsOperation]
  · simp [existsOperation, hne]
  · simp [providerConfigureConfig, getExistsExpectedStatus, h]

/-- Input for the C10 witness: an exists command expecting status 3. -/
def dataExists : ResourceData :=
  { exampleData with
      existsCommand := some "check /tmp/x"
      existsExpectedStatus := some 3 }

/-- C10 witness: expected status 3 reports present, status 0 reports absent
with no error, a spawn failure propagates, and the schema default expected
status is 0. -/
theorem claim10_witness :
    existsOperation (providerConfigureConfig "linux" dataExists)
      (Except.ok 3) = Except.ok true ∧
    existsOperation (providerConfigureConfig "linux" dataExists)
      (Except.ok 0) = Except.ok false ∧
    existsOperation (providerConfigureConfig "linux" dataExists)
      (Except.error "spawn failure") = Except.error "spawn failure" ∧
    (providerConfigureConfig "linux" exampleData).ExistsExpectedStatus = 0 :=
  ⟨((claim10 (providerConfigureConfig "linux" dataExists)).1 3).mpr (by decide),
   (claim10 (providerConfigureConfig "linux" dataExists)).2.1 0 (by decide),
   (claim10 (providerConfigureConfig "linux" dataExists)).2.2.1 "spawn failure",
   (claim10 (providerConfigureConfig "linux" exampleData)).2.2.2 "linux"
     exampleData rfl⟩

end Script
